import Mathlib

/-!
# SpeakerRecognition — verification of the common pipeline functions

Shallow embedding of the functions defined in `commons.ipynb` of the
SpeakerRecognition repository: the spectrogram dimension calculator, the
per-item feature extractors and the batch feature pipeline
(`extract_features`), the one-hot label encoder, the "better" CNN model
builder, and the evaluator.  Python integers are modelled as `ℤ` (with
Python's floor division `Int.fdiv`) or `ℕ`, Python floats as `ℚ`,
NumPy arrays as lists, and the opaque numerical library (librosa) as a
bundle of abstract functions.  Side effects (logging, plotting, file
output) are modelled as explicit event lists / returned artifact names.
-/

namespace SpeakerRecognition

/-! ## Dimension calculator (`calculate_spectrogram_dimensions`) -/

/-- `calculate_spectrogram_dimensions(sample_length, n_fft, hop_length, sr=16000)`
from `commons.ipynb`: `total_samples = sr * sample_length`;
`frequency_bins = n_fft // 2 + 1`;
`time_frames = 1 + (total_samples - n_fft) // hop_length`.
Python's `//` on integers is floor division, `Int.fdiv`. -/
def calculate_spectrogram_dimensions (sample_length n_fft hop_length : ℤ)
    (sr : ℤ := 16000) : ℤ × ℤ :=
  let total_samples := sr * sample_length
  let frequency_bins := Int.fdiv n_fft 2 + 1
  let time_frames := 1 + Int.fdiv (total_samples - n_fft) hop_length
  (frequency_bins, time_frames)

/-- C2: for natural-number parameters with `sr * duration ≥ n_fft` (and a
positive hop length, so the division is defined), the calculator returns
exactly `(n_fft / 2 + 1, 1 + (sr * duration - n_fft) / hop_length)` in
natural-number (floor) arithmetic. -/
theorem calculate_spectrogram_dimensions_closed_form
    (sr sample_length n_fft hop_length : ℕ)
    (hfit : n_fft ≤ sr * sample_length) (hhop : 0 < hop_length) :
    calculate_spectrogram_dimensions (sample_length : ℤ) (n_fft : ℤ)
        (hop_length : ℤ) (sr : ℤ)
      = (((n_fft / 2 + 1 : ℕ) : ℤ), ((1 + (sr * sample_length - n_fft) / hop_length : ℕ) : ℤ)) := by
  have h2 : (0:ℤ) ≤ 2 := by norm_num
  have hh : (0:ℤ) ≤ (hop_length : ℤ) := by exact_mod_cast Nat.zero_le _
  have hsub : ((sr : ℤ) * (sample_length : ℤ) - (n_fft : ℤ))
      = ((sr * sample_length - n_fft : ℕ) : ℤ) := by
    push_cast [Nat.cast_sub hfit]
    ring
  simp only [calculate_spectrogram_dimensions]
  rw [Int.fdiv_eq_ediv _ h2, Int.fdiv_eq_ediv _ hh, hsub]
  simp only [Prod.mk.injEq]
  constructor <;> push_cast [Int.ofNat_ediv] <;> ring

/-- Witness for C2: the spec's concrete instance `sr = 16000`, duration 1 s,
`n_fft = 2048`, `hop_length = 512` yields `(1025, 28)`. -/
theorem calculate_spectrogram_dimensions_witness :
    calculate_spectrogram_dimensions 1 2048 512 16000 = (1025, 28) := by
  have h := calculate_spectrogram_dimensions_closed_form 16000 1 2048 512
    (by norm_num) (by norm_num)
  simpa using h

/-! ## Feature extractors and the batch pipeline (`extract_features`)

The per-item extractors are thin wrappers around librosa calls; librosa
itself is opaque numerics, modelled as a bundle of abstract functions over
an abstract waveform type `W` and matrix type `M`.  Plotting
(`matplotlib`) and logging (`logging.info`) are side effects, modelled as
an explicit event list returned next to the value. -/

/-- An observable side effect: a rendered figure or an info log line. -/
inductive SideEffect : Type where
  | plot (title : String) : SideEffect
  | log (msg : String) : SideEffect
deriving DecidableEq, Repr

/-- The librosa operations the extractors call, kept abstract: `stft y n_fft
hop_length`, `np.abs`, `amplitude_to_db(_, ref=np.max)`,
`power_to_db(_, ref=np.max)`, `melspectrogram y sr n_fft hop_length n_mels`,
`mfcc y sr n_mfcc n_fft hop_length`, elementwise square (`** 2`),
`chroma_stft S n_chroma sr`, `spectral_contrast S sr`. -/
structure LibrosaApi (W M : Type) : Type where
  stft : W → ℕ → ℕ → M
  np_abs : M → M
  amplitude_to_db : M → M
  power_to_db : M → M
  melspectrogram : W → ℕ → ℕ → ℕ → ℕ → M
  mfcc : W → ℕ → ℕ → ℕ → ℕ → M
  square : M → M
  chroma_stft : M → ℕ → ℕ → M
  spectral_contrast : M → ℕ → M

variable {W M : Type}

/-- `extract_MFCCs(y, sr, n_fft, hop_length, n_mfcc=128, show_plt=False)`:
`mfccs = librosa.feature.mfcc(...)`; if `show_plt`, renders an MFCC figure;
returns `mfccs`. -/
def extract_MFCCs (lib : LibrosaApi W M) (y : W) (sr n_fft hop_length : ℕ)
    (n_mfcc : ℕ := 128) (show_plt : Bool := false) : M × List SideEffect :=
  let mfccs := lib.mfcc y sr n_mfcc n_fft hop_length
  (mfccs, if show_plt then [SideEffect.plot "MFCC"] else [])

/-- `extract_stft_spectrogram(y, sr, hop_length, show_plt, n_fft=2048)`:
`stft = librosa.stft(y, n_fft, hop_length)`; `spect = np.abs(stft)`;
`spect = librosa.amplitude_to_db(spect, ref=np.max)`; optional figure;
returns `spect`. -/
def extract_stft_spectrogram (lib : LibrosaApi W M) (y : W) (sr hop_length : ℕ)
    (show_plt : Bool) (n_fft : ℕ := 2048) : M × List SideEffect :=
  let stft := lib.stft y n_fft hop_length
  let spect := lib.np_abs stft
  let spect := lib.amplitude_to_db spect
  (spect, if show_plt then [SideEffect.plot "Spectrogram"] else [])

/-- `extract_mel_spectrogram(y, sr, hop_length, show_plt, n_fft=2048, n_mels=128)`:
`mel_spect = librosa.feature.melspectrogram(...)`;
`mel_spect = librosa.power_to_db(mel_spect, ref=np.max)`; optional figure;
returns `mel_spect`. -/
def extract_mel_spectrogram (lib : LibrosaApi W M) (y : W) (sr hop_length : ℕ)
    (show_plt : Bool) (n_fft : ℕ := 2048) (n_mels : ℕ := 128) : M × List SideEffect :=
  let mel_spect := lib.melspectrogram y sr n_fft hop_length n_mels
  let mel_spect := lib.power_to_db mel_spect
  (mel_spect, if show_plt then [SideEffect.plot "Mel Spectrogram"] else [])

/-- `extract_chroma_stft(y, sr, hop_length=2048, n_fft=2048, n_chroma=128)`:
`stft = np.abs(librosa.stft(y, n_fft, hop_length)) ** 2`;
`chroma_stft = librosa.feature.chroma_stft(S=stft, n_chroma, sr)`.  No
plotting in the source. -/
def extract_chroma_stft (lib : LibrosaApi W M) (y : W) (sr : ℕ)
    (hop_length : ℕ := 2048) (n_fft : ℕ := 2048) (n_chroma : ℕ := 128) : M :=
  let stft := lib.square (lib.np_abs (lib.stft y n_fft hop_length))
  lib.chroma_stft stft n_chroma sr

/-- `extract_spectral_contrast(y, sr, hop_length=2048, n_fft=2048)`:
`stft = np.abs(librosa.stft(y, n_fft, hop_length))`;
`spec_contr = librosa.feature.spectral_contrast(S=stft, sr)`.  No plotting
in the source. -/
def extract_spectral_contrast (lib : LibrosaApi W M) (y : W) (sr : ℕ)
    (hop_length : ℕ := 2048) (n_fft : ℕ := 2048) : M :=
  let stft := lib.np_abs (lib.stft y n_fft hop_length)
  lib.spectral_contrast stft sr

/-- The closed set of feature tags the `if/elif` chain of `extract_features`
recognizes. -/
def recognizedFeatures : List String :=
  ["Stft", "Mel", "MFCC", "ChromaStft", "SpectralContrast"]

/-- The `if/elif` dispatch of `extract_features` for one item: `some` of the
extractor's result (value and its plot events) when a branch matches, `none`
when no branch matches (the loop variable `spect` is then left unassigned). -/
def dispatchExtractor (lib : LibrosaApi W M) (feature : String)
    (sr hop_length n_fft n_mels n_chroma n_mfcc : ℕ) (show_plt : Bool)
    (data : W) : Option (M × List SideEffect) :=
  if feature = "Stft" then
    some (extract_stft_spectrogram lib data sr hop_length show_plt n_fft)
  else if feature = "Mel" then
    some (extract_mel_spectrogram lib data sr hop_length show_plt n_fft n_mels)
  else if feature = "MFCC" then
    some (extract_MFCCs lib data sr n_fft hop_length n_mfcc show_plt)
  else if feature = "ChromaStft" then
    some (extract_chroma_stft lib data sr hop_length n_fft n_chroma, [])
  else if feature = "SpectralContrast" then
    some (extract_spectral_contrast lib data sr hop_length n_fft, [])
  else
    none

/-- The progress log `extract_features` emits inside the loop:
`if show_logs and i % 50 == 0: logging.info(f"Extracted {i}/{n} features.")`. -/
def progressLog (show_logs : Bool) (i features_length : ℕ) : List SideEffect :=
  if show_logs && i % 50 == 0 then
    [SideEffect.log ("Extracted " ++ toString i ++ "/"
      ++ toString features_length ++ " features.")]
  else []

/-- The Python exception raised when `features.append(spect)` reads `spect`
and no dispatch branch has ever assigned it. -/
def unboundLocalError : String :=
  "UnboundLocalError: local variable referenced before assignment"

/-- The `for i, data in enumerate(samples)` loop of `extract_features`.
State: the current index `i` and the current value of the Python local
`spect` (`none` while unassigned — it persists across iterations, so a
stale value would be appended if a later iteration matched no branch).
Reading `spect` unassigned raises `UnboundLocalError`, which aborts the
loop; otherwise the value is appended and the optional progress log
emitted. -/
def featuresLoop (lib : LibrosaApi W M) (feature : String)
    (sr hop_length n_fft n_mels n_chroma n_mfcc : ℕ)
    (show_logs show_plt : Bool) (features_length : ℕ) :
    List W → ℕ → Option M → Except String (List M) × List SideEffect
  | [], _, _ => (Except.ok [], [])
  | data :: rest, i, spect0 =>
    match dispatchExtractor lib feature sr hop_length n_fft n_mels n_chroma
        n_mfcc show_plt data with
    | some (m, effs) =>
      let tail := featuresLoop lib feature sr hop_length n_fft n_mels n_chroma
        n_mfcc show_logs show_plt features_length rest (i + 1) (some m)
      (tail.1.map (fun l => m :: l),
        effs ++ progressLog show_logs i features_length ++ tail.2)
    | none =>
      match spect0 with
      | none => (Except.error unboundLocalError, [])
      | some m =>
        let tail := featuresLoop lib feature sr hop_length n_fft n_mels n_chroma
          n_mfcc show_logs show_plt features_length rest (i + 1) (some m)
        (tail.1.map (fun l => m :: l),
          progressLog show_logs i features_length ++ tail.2)

/-- `extract_features(samples, feature="Mel", sr=16000, hop_length=2048,
n_fft=2048, n_mels=128, n_chroma=128, n_mfcc=128, show_logs=False,
show_plt=False)`: runs the dispatch loop over `samples`, stacks the
per-item matrices (`np.array(features)`, modelled as the list of rows),
and emits the two final log lines when `show_logs`.  The first component
is the stacked feature batch or the propagated exception; the second the
side-effect trace. -/
def extract_features (lib : LibrosaApi W M) (samples : List W)
    (feature : String := "Mel") (sr : ℕ := 16000) (hop_length : ℕ := 2048)
    (n_fft : ℕ := 2048) (n_mels : ℕ := 128) (n_chroma : ℕ := 128)
    (n_mfcc : ℕ := 128) (show_logs : Bool := false) (show_plt : Bool := false) :
    Except String (List M) × List SideEffect :=
  let features_length := samples.length
  let r := featuresLoop lib feature sr hop_length n_fft n_mels n_chroma n_mfcc
    show_logs show_plt features_length samples 0 none
  match r.1 with
  | Except.ok fs =>
    (Except.ok fs,
      r.2 ++ (if show_logs then
        [SideEffect.log ("Extracted features from " ++ toString features_length
            ++ " audio files."),
          SideEffect.log ("Features shape: (" ++ toString fs.length ++ ", ...)")]
      else []))
  | Except.error e => (Except.error e, r.2)

/-- The batch value returned by `extract_features` is the dispatch loop's
value: the trailing logging only adds side effects. -/
lemma extract_features_fst (lib : LibrosaApi W M) (samples : List W)
    (feature : String) (sr hop_length n_fft n_mels n_chroma n_mfcc : ℕ)
    (show_logs show_plt : Bool) :
    (extract_features lib samples feature sr hop_length n_fft n_mels n_chroma
        n_mfcc show_logs show_plt).1
      = (featuresLoop lib feature sr hop_length n_fft n_mels n_chroma n_mfcc
          show_logs show_plt samples.length samples 0 none).1 := by
  simp only [extract_features]
  split <;> simp_all

/-- A feature name outside the recognized set matches no dispatch branch. -/
lemma dispatchExtractor_unrecognized (lib : LibrosaApi W M) (feature : String)
    (sr hop_length n_fft n_mels n_chroma n_mfcc : ℕ) (show_plt : Bool)
    (data : W) (h : feature ∉ recognizedFeatures) :
    dispatchExtractor lib feature sr hop_length n_fft n_mels n_chroma n_mfcc
      show_plt data = none := by
  simp only [recognizedFeatures, List.mem_cons, List.not_mem_nil, or_false,
    not_or] at h
  obtain ⟨h1, h2, h3, h4, h5⟩ := h
  simp [dispatchExtractor, h1, h2, h3, h4, h5]

/-- C1: with a non-empty sample collection and a feature name outside
`{"Stft", "Mel", "MFCC", "ChromaStft", "SpectralContrast"}`, the batch
pipeline raises (`UnboundLocalError` on the first `features.append(spect)`)
rather than returning a feature array. -/
theorem extract_features_unrecognized_raises (lib : LibrosaApi W M)
    (samples : List W) (feature : String)
    (sr hop_length n_fft n_mels n_chroma n_mfcc : ℕ) (show_logs show_plt : Bool)
    (hne : samples ≠ []) (hfeat : feature ∉ recognizedFeatures) :
    (extract_features lib samples feature sr hop_length n_fft n_mels n_chroma
        n_mfcc show_logs show_plt).1 = Except.error unboundLocalError := by
  obtain ⟨d, rest, rfl⟩ := List.exists_cons_of_ne_nil hne
  rw [extract_features_fst]
  simp [featuresLoop, dispatchExtractor_unrecognized lib feature sr hop_length
    n_fft n_mels n_chroma n_mfcc show_plt d hfeat]

/-- A concrete librosa instance over trivial waveforms and `ℕ`-valued
matrices, used to instantiate the pipeline theorems at concrete inputs. -/
def unitLib : LibrosaApi Unit ℕ where
  stft := fun _ _ _ => 0
  np_abs := fun m => m + 1
  amplitude_to_db := fun m => m + 2
  power_to_db := fun m => m + 3
  melspectrogram := fun _ _ _ _ _ => 10
  mfcc := fun _ _ _ _ _ => 20
  square := fun m => m * m
  chroma_stft := fun m _ _ => m + 30
  spectral_contrast := fun m _ => m + 40

/-- Witness for C1: one waveform with the unrecognized name
`"Spectrogram"` raises. -/
theorem extract_features_unrecognized_raises_witness :
    (extract_features unitLib [()] "Spectrogram" 16000 2048 2048 128 128 128
        false false).1 = Except.error unboundLocalError :=
  extract_features_unrecognized_raises unitLib [()] "Spectrogram" 16000 2048
    2048 128 128 128 false false (by decide) (by decide)

/-- C10: on the empty waveform collection the dispatch loop never runs, so
`extract_features` returns the empty batch (first dimension 0) without
raising, for every feature name — recognized or not. -/
theorem extract_features_empty (lib : LibrosaApi W M) (feature : String)
    (sr hop_length n_fft n_mels n_chroma n_mfcc : ℕ) (show_logs show_plt : Bool) :
    (extract_features lib ([] : List W) feature sr hop_length n_fft n_mels
        n_chroma n_mfcc show_logs show_plt).1 = Except.ok ([] : List M) := by
  rfl

/-- The matrix a dispatch branch returns does not depend on `show_plt`:
plotting only adds a side effect. -/
lemma dispatchExtractor_fst_flag (lib : LibrosaApi W M) (feature : String)
    (sr hop_length n_fft n_mels n_chroma n_mfcc : ℕ) (p q : Bool) (data : W) :
    (dispatchExtractor lib feature sr hop_length n_fft n_mels n_chroma n_mfcc
        p data).map Prod.fst
      = (dispatchExtractor lib feature sr hop_length n_fft n_mels n_chroma
          n_mfcc q data).map Prod.fst := by
  simp only [dispatchExtractor, extract_stft_spectrogram,
    extract_mel_spectrogram, extract_MFCCs]
  split_ifs <;> rfl

/-- The dispatch loop's value component is independent of the
`show_logs`/`show_plt` flags. -/
lemma featuresLoop_fst_flag (lib : LibrosaApi W M) (feature : String)
    (sr hop_length n_fft n_mels n_chroma n_mfcc : ℕ)
    (sl1 sp1 sl2 sp2 : Bool) (total : ℕ) (samples : List W) :
    ∀ (i : ℕ) (s0 : Option M),
      (featuresLoop lib feature sr hop_length n_fft n_mels n_chroma n_mfcc
          sl1 sp1 total samples i s0).1
        = (featuresLoop lib feature sr hop_length n_fft n_mels n_chroma n_mfcc
            sl2 sp2 total samples i s0).1 := by
  induction samples with
  | nil => intro i s0; rfl
  | cons data rest ih =>
    intro i s0
    have hd := dispatchExtractor_fst_flag lib feature sr hop_length n_fft
      n_mels n_chroma n_mfcc sp1 sp2 data
    cases h1 : dispatchExtractor lib feature sr hop_length n_fft n_mels
        n_chroma n_mfcc sp1 data with
    | none =>
      cases h2 : dispatchExtractor lib feature sr hop_length n_fft n_mels
          n_chroma n_mfcc sp2 data with
      | none =>
        cases s0 with
        | none => simp [featuresLoop, h1, h2]
        | some m => simp [featuresLoop, h1, h2, ih (i + 1) (some m)]
      | some me => rw [h1, h2] at hd; simp at hd
    | some me =>
      cases h2 : dispatchExtractor lib feature sr hop_length n_fft n_mels
          n_chroma n_mfcc sp2 data with
      | none => rw [h1, h2] at hd; simp at hd
      | some me' =>
        obtain ⟨m1, e1⟩ := me
        obtain ⟨m2, e2⟩ := me'
        rw [h1, h2] at hd
        simp only [Option.map_some', Option.some.injEq] at hd
        cases hd
        simp [featuresLoop, h1, h2, ih (i + 1) (some m1)]

/-- C8: the feature batch `extract_features` returns is identical for any
two settings of the `show_logs` and `show_plt` flags — logging and plotting
are pure observability.  (Stated as a two-run equality of the value
component over arbitrary flag pairs.) -/
theorem extract_features_flag_independent (lib : LibrosaApi W M)
    (samples : List W) (feature : String)
    (sr hop_length n_fft n_mels n_chroma n_mfcc : ℕ) (sl1 sp1 sl2 sp2 : Bool) :
    (extract_features lib samples feature sr hop_length n_fft n_mels n_chroma
        n_mfcc sl1 sp1).1
      = (extract_features lib samples feature sr hop_length n_fft n_mels
          n_chroma n_mfcc sl2 sp2).1 := by
  rw [extract_features_fst, extract_features_fst]
  exact featuresLoop_fst_flag lib feature sr hop_length n_fft n_mels n_chroma
    n_mfcc sl1 sp1 sl2 sp2 samples.length samples 0 none

/-- When every item dispatches to the same extractor, the loop returns the
map of that extractor over the samples, in input order. -/
lemma featuresLoop_map (lib : LibrosaApi W M) (feature : String)
    (sr hop_length n_fft n_mels n_chroma n_mfcc : ℕ) (show_logs show_plt : Bool)
    (total : ℕ) (g : W → M) (geff : W → List SideEffect)
    (hg : ∀ y, dispatchExtractor lib feature sr hop_length n_fft n_mels
      n_chroma n_mfcc show_plt y = some (g y, geff y))
    (samples : List W) : ∀ (i : ℕ) (s0 : Option M),
      (featuresLoop lib feature sr hop_length n_fft n_mels n_chroma n_mfcc
          show_logs show_plt total samples i s0).1
        = Except.ok (samples.map g) := by
  induction samples with
  | nil => intro i s0; rfl
  | cons d rest ih =>
    intro i s0
    simp [featuresLoop, hg d, ih (i + 1) (some (g d)), Except.map]

/-- C4: for each of the five recognized feature names, the batch pipeline
applies the matching extractor to every waveform in input order — the
returned batch is exactly the list of single-item extractor outputs, so its
first dimension is `N = samples.length` and each stacked entry is the
single-item extractor's matrix (hence the remaining dimensions are that
extractor's output shape). -/
theorem extract_features_batch (lib : LibrosaApi W M) (samples : List W)
    (sr hop_length n_fft n_mels n_chroma n_mfcc : ℕ) (show_logs show_plt : Bool) :
    ((extract_features lib samples "Stft" sr hop_length n_fft n_mels n_chroma
        n_mfcc show_logs show_plt).1
      = Except.ok (samples.map
          (fun y => (extract_stft_spectrogram lib y sr hop_length show_plt n_fft).1)))
    ∧ ((extract_features lib samples "Mel" sr hop_length n_fft n_mels n_chroma
        n_mfcc show_logs show_plt).1
      = Except.ok (samples.map
          (fun y => (extract_mel_spectrogram lib y sr hop_length show_plt n_fft n_mels).1)))
    ∧ ((extract_features lib samples "MFCC" sr hop_length n_fft n_mels n_chroma
        n_mfcc show_logs show_plt).1
      = Except.ok (samples.map
          (fun y => (extract_MFCCs lib y sr n_fft hop_length n_mfcc show_plt).1)))
    ∧ ((extract_features lib samples "ChromaStft" sr hop_length n_fft n_mels
        n_chroma n_mfcc show_logs show_plt).1
      = Except.ok (samples.map
          (fun y => extract_chroma_stft lib y sr hop_length n_fft n_chroma)))
    ∧ ((extract_features lib samples "SpectralContrast" sr hop_length n_fft
        n_mels n_chroma n_mfcc show_logs show_plt).1
      = Except.ok (samples.map
          (fun y => extract_spectral_contrast lib y sr hop_length n_fft)))
    ∧ ∀ feature ∈ recognizedFeatures, ∃ out : List M,
        (extract_features lib samples feature sr hop_length n_fft n_mels
            n_chroma n_mfcc show_logs show_plt).1 = Except.ok out
          ∧ out.length = samples.length := by
  have hstft := extract_features_fst lib samples "Stft" sr hop_length n_fft
    n_mels n_chroma n_mfcc show_logs show_plt
  rw [featuresLoop_map lib "Stft" sr hop_length n_fft n_mels n_chroma n_mfcc
    show_logs show_plt samples.length
    (fun y => (extract_stft_spectrogram lib y sr hop_length show_plt n_fft).1)
    (fun y => (extract_stft_spectrogram lib y sr hop_length show_plt n_fft).2)
    (fun y => by simp [dispatchExtractor]) samples 0 none] at hstft
  have hmel := extract_features_fst lib samples "Mel" sr hop_length n_fft
    n_mels n_chroma n_mfcc show_logs show_plt
  rw [featuresLoop_map lib "Mel" sr hop_length n_fft n_mels n_chroma n_mfcc
    show_logs show_plt samples.length
    (fun y => (extract_mel_spectrogram lib y sr hop_length show_plt n_fft n_mels).1)
    (fun y => (extract_mel_spectrogram lib y sr hop_length show_plt n_fft n_mels).2)
    (fun y => by simp [dispatchExtractor]) samples 0 none] at hmel
  have hmfcc := extract_features_fst lib samples "MFCC" sr hop_length n_fft
    n_mels n_chroma n_mfcc show_logs show_plt
  rw [featuresLoop_map lib "MFCC" sr hop_length n_fft n_mels n_chroma n_mfcc
    show_logs show_plt samples.length
    (fun y => (extract_MFCCs lib y sr n_fft hop_length n_mfcc show_plt).1)
    (fun y => (extract_MFCCs lib y sr n_fft hop_length n_mfcc show_plt).2)
    (fun y => by simp [dispatchExtractor]) samples 0 none] at hmfcc
  have hchroma := extract_features_fst lib samples "ChromaStft" sr hop_length
    n_fft n_mels n_chroma n_mfcc show_logs show_plt
  rw [featuresLoop_map lib "ChromaStft" sr hop_length n_fft n_mels n_chroma
    n_mfcc show_logs show_plt samples.length
    (fun y => extract_chroma_stft lib y sr hop_length n_fft n_chroma)
    (fun _ => ([] : List SideEffect))
    (fun y => by simp [dispatchExtractor]) samples 0 none] at hchroma
  have hcontrast := extract_features_fst lib samples "SpectralContrast" sr
    hop_length n_fft n_mels n_chroma n_mfcc show_logs show_plt
  rw [featuresLoop_map lib "SpectralContrast" sr hop_length n_fft n_mels
    n_chroma n_mfcc show_logs show_plt samples.length
    (fun y => extract_spectral_contrast lib y sr hop_length n_fft)
    (fun _ => ([] : List SideEffect))
    (fun y => by simp [dispatchExtractor]) samples 0 none] at hcontrast
  refine ⟨hstft, hmel, hmfcc, hchroma, hcontrast, ?_⟩
  intro feature hf
  simp only [recognizedFeatures, List.mem_cons, List.not_mem_nil,
    or_false] at hf
  rcases hf with rfl | rfl | rfl | rfl | rfl
  · exact ⟨_, hstft, by simp⟩
  · exact ⟨_, hmel, by simp⟩
  · exact ⟨_, hmfcc, by simp⟩
  · exact ⟨_, hchroma, by simp⟩
  · exact ⟨_, hcontrast, by simp⟩

/-! ## One-hot label encoder (`onehot_encode`)

`onehot_encode` reshapes the labels to a column, runs sklearn's
`OneHotEncoder().fit_transform`, and returns the dense one-hot matrix
together with `{col_idx: class_label for col_idx, class_label in
enumerate(encoder.categories_[0])}`.  `OneHotEncoder` determines
`categories_` as the sorted distinct values of the fitted column and the
row for a label is the indicator vector of its category index; labels are
modelled as naturals (categorical identifiers with a total order). -/

/-- `encoder.categories_[0]`: the distinct label values in sorted order. -/
def oneHotCategories (labels : List ℕ) : List ℕ :=
  labels.toFinset.sort (· ≤ ·)

/-- `onehot_encode(labels)`: the dense `N × K` one-hot matrix (row `i` is the
indicator of label `i`'s column among the sorted categories) and the
index-to-label mapping (the category list, read positionally). -/
def onehot_encode (labels : List ℕ) : List (List ℕ) × List ℕ :=
  let original_classes := oneHotCategories labels
  let labels_onehot :=
    labels.map (fun l => original_classes.map (fun c => if c = l then 1 else 0))
  (labels_onehot, original_classes)

/-- Decoding one row via the returned mapping: the label at the column
holding the 1 (the first such column, if any). -/
def decode_row (mapping : List ℕ) (row : List ℕ) : Option ℕ :=
  (((mapping.zip row).filter (fun p => p.2 == 1)).head?).map Prod.fst

/-- Decoding a one-hot matrix row by row via the mapping. -/
def decode_onehot (mapping : List ℕ) (rows : List (List ℕ)) : List (Option ℕ) :=
  rows.map (decode_row mapping)

lemma zip_map_self (f : ℕ → ℕ) (cs : List ℕ) :
    cs.zip (cs.map f) = cs.map (fun c => (c, f c)) := by
  induction cs with
  | nil => rfl
  | cons c rest ih => simp [ih]

lemma filter_indicator_not_mem (l : ℕ) (cs : List ℕ) (h : l ∉ cs) :
    (cs.map (fun c => (c, if c = l then (1:ℕ) else 0))).filter
      (fun p => p.2 == 1) = [] := by
  induction cs with
  | nil => rfl
  | cons c rest ih =>
    simp only [List.mem_cons, not_or] at h
    obtain ⟨hc, hrest⟩ := h
    have hcl : c ≠ l := fun e => hc e.symm
    simp [List.filter, hcl, ih hrest]

lemma filter_indicator_mem (l : ℕ) (cs : List ℕ) (hnd : cs.Nodup)
    (h : l ∈ cs) :
    (cs.map (fun c => (c, if c = l then (1:ℕ) else 0))).filter
      (fun p => p.2 == 1) = [(l, 1)] := by
  induction cs with
  | nil => simp at h
  | cons c rest ih =>
    obtain ⟨hcr, hrestnd⟩ := List.nodup_cons.mp hnd
    by_cases hcl : c = l
    · subst hcl
      simp [List.filter, filter_indicator_not_mem c rest hcr]
    · have hlr : l ∈ rest := by
        rcases List.mem_cons.mp h with h' | h'
        · exact absurd h'.symm hcl
        · exact h'
      simp [List.filter, hcl, ih hrestnd hlr]

/-- Decoding the indicator row of a label present in a duplicate-free
mapping recovers the label. -/
lemma decode_row_indicator (mapping : List ℕ) (l : ℕ) (hnd : mapping.Nodup)
    (hl : l ∈ mapping) :
    decode_row mapping (mapping.map (fun c => if c = l then 1 else 0))
      = some l := by
  unfold decode_row
  rw [zip_map_self, filter_indicator_mem l mapping hnd hl]
  rfl

/-- C3: for every label list, `onehot_encode` returns an `N × K` matrix and
a `K`-entry mapping with `K` the number of distinct labels, and decoding
each row via the mapping (the label at the column holding the 1)
reproduces the original label sequence exactly. -/
theorem onehot_encode_roundtrip (labels : List ℕ) :
    (onehot_encode labels).1.length = labels.length
    ∧ (∀ row ∈ (onehot_encode labels).1, row.length = labels.toFinset.card)
    ∧ (onehot_encode labels).2.length = labels.toFinset.card
    ∧ decode_onehot (onehot_encode labels).2 (onehot_encode labels).1
        = labels.map some := by
  have hnd : (oneHotCategories labels).Nodup := Finset.sort_nodup _ _
  refine ⟨by simp [onehot_encode], ?_, ?_, ?_⟩
  · intro row hrow
    simp only [onehot_encode, List.mem_map] at hrow
    obtain ⟨l, _, rfl⟩ := hrow
    simp [oneHotCategories, Finset.length_sort]
  · simp [onehot_encode, oneHotCategories, Finset.length_sort]
  · simp only [onehot_encode, decode_onehot, List.map_map]
    refine List.map_congr_left ?_
    intro l hl
    have hlm : l ∈ oneHotCategories labels := by
      simpa [oneHotCategories, Finset.mem_sort, List.mem_toFinset] using hl
    exact decode_row_indicator (oneHotCategories labels) l hnd hlm

/-- C6: the mapping returned by `onehot_encode` lists the distinct label
values in strictly increasing order — column `i` is the `i`-th smallest
distinct label — and its members are exactly the input labels. -/
theorem onehot_encode_mapping_sorted (labels : List ℕ) :
    ((onehot_encode labels).2).Sorted (· < ·)
    ∧ ((onehot_encode labels).2).Nodup
    ∧ (∀ x, x ∈ (onehot_encode labels).2 ↔ x ∈ labels) := by
  refine ⟨?_, ?_, ?_⟩
  · simpa [onehot_encode, oneHotCategories] using
      (labels.toFinset).sort_sorted_lt
  · simpa [onehot_encode, oneHotCategories] using
      Finset.sort_nodup (· ≤ ·) labels.toFinset
  · intro x
    simp [onehot_encode, oneHotCategories, Finset.mem_sort, List.mem_toFinset]

/-! ## Model builder (`create_better_base_cnn_model`)

The Keras `Sequential([...])` call is declarative: the model is its layer
list.  Layers are modelled as an inductive type carrying the
hyperparameters the source passes; `kernel_regularizer=tf.keras.regularizers.l2(c)`
is `some c`, its absence `none` (Keras's default).  Rates `0.1`, `0.01`,
`0.3`, `0.4` are the exact rationals `1/10`, `1/100`, `3/10`, `2/5`. -/

/-- A Keras activation as used in `commons.ipynb`. -/
inductive Activation : Type where
  | leakyReLU (alpha : ℚ) : Activation
  | relu : Activation
  | softmax : Activation
  | linear : Activation
deriving DecidableEq, Repr

/-- A Keras layer as used by the CNN builders: `conv2D filters kernel strides
padding activation kernel_regularizer input_shape`, `dense units activation
kernel_regularizer`, `dropout rate`, `flatten`, `batchNormalization`, and a
standalone activation layer. -/
inductive Layer : Type where
  | conv2D (filters : ℕ) (kernel strides : ℕ × ℕ) (padding : String)
      (activation : Activation) (kernel_regularizer : Option ℚ)
      (input_shape : Option (ℕ × ℕ × ℕ)) : Layer
  | dense (units : ℕ) (activation : Activation)
      (kernel_regularizer : Option ℚ) : Layer
  | dropout (rate : ℚ) : Layer
  | flatten : Layer
  | batchNormalization : Layer
  | actLayer (a : Activation) : Layer
deriving DecidableEq, Repr

/-- `tf.keras.regularizers.l2(c)` attached as a kernel regularizer. -/
def l2 (c : ℚ) : Option ℚ := some c

/-- `create_better_base_cnn_model(feature_width, feature_height, channels,
classes)`: the `Sequential` layer list of the "better" CNN — four 64-filter
convolutions (two strided 4×4) with leaky-ReLU(0.1) activation and
L2(0.01) kernel regularizers, dropouts 0.3/0.4, flatten, two dense blocks
(512 and 256 units, L2(0.01), batch-norm then leaky-ReLU then dropout 0.3),
and a softmax output `Dense(classes)` (no regularizer in the source). -/
def create_better_base_cnn_model
    (feature_width feature_height channels classes : ℕ) : List Layer :=
  [Layer.conv2D 64 (3, 3) (1, 1) "same" (Activation.leakyReLU (1/10))
      (l2 (1/100)) (some (feature_width, feature_height, channels)),
    Layer.conv2D 64 (3, 3) (4, 4) "same" (Activation.leakyReLU (1/10))
      (l2 (1/100)) none,
    Layer.dropout (3/10),
    Layer.conv2D 64 (3, 3) (1, 1) "same" (Activation.leakyReLU (1/10))
      (l2 (1/100)) none,
    Layer.conv2D 64 (3, 3) (4, 4) "same" (Activation.leakyReLU (1/10))
      (l2 (1/100)) none,
    Layer.dropout (2/5),
    Layer.flatten,
    Layer.dense 512 Activation.linear (l2 (1/100)),
    Layer.batchNormalization,
    Layer.actLayer (Activation.leakyReLU (1/10)),
    Layer.dropout (3/10),
    Layer.dense 256 Activation.linear (l2 (1/100)),
    Layer.batchNormalization,
    Layer.actLayer (Activation.leakyReLU (1/10)),
    Layer.dropout (3/10),
    Layer.dense classes Activation.softmax none]

/-- Whether a layer is a convolutional or dense layer. -/
def isConvOrDense : Layer → Bool
  | Layer.conv2D _ _ _ _ _ _ _ => true
  | Layer.dense _ _ _ => true
  | _ => false

/-- Whether a layer carries an L2 kernel regularizer. -/
def hasL2Regularizer : Layer → Bool
  | Layer.conv2D _ _ _ _ _ r _ => r.isSome
  | Layer.dense _ _ r => r.isSome
  | _ => false

/-- Counterexample to C5 as stated: in the better CNN (here at
`feature_width = 32`, `feature_height = 32`, `channels = 1`, `classes = 3`)
not every convolutional/dense layer carries an L2 regularizer — the final
softmax `Dense(classes)` has none. -/
theorem better_cnn_l2_counterexample :
    ¬ (∀ l ∈ create_better_base_cnn_model 32 32 1 3,
        isConvOrDense l = true → hasL2Regularizer l = true) := by
  decide

/-- C5 (amended): in `create_better_base_cnn_model`, every convolutional
layer and every dense layer carries an L2 weight regularizer **except the
final softmax output layer** `Dense(classes)`, which carries none. -/
theorem better_cnn_l2_amended (feature_width feature_height channels classes : ℕ) :
    (∀ l ∈ create_better_base_cnn_model feature_width feature_height channels classes,
        isConvOrDense l = true →
          hasL2Regularizer l = true
            ∨ l = Layer.dense classes Activation.softmax none)
    ∧ hasL2Regularizer (Layer.dense classes Activation.softmax none) = false := by
  refine ⟨?_, rfl⟩
  intro l hl
  simp only [create_better_base_cnn_model, List.mem_cons,
    List.not_mem_nil, or_false] at hl
  rcases hl with rfl | rfl | rfl | rfl | rfl | rfl | rfl | rfl | rfl | rfl
    | rfl | rfl | rfl | rfl | rfl | rfl <;>
    simp [isConvOrDense, hasL2Regularizer, l2]

/-- Witness for C5 (amended): the second convolution of the concrete
32×32×1, 3-class model does carry its L2 regularizer. -/
theorem better_cnn_l2_amended_witness :
    hasL2Regularizer (Layer.conv2D 64 (3, 3) (4, 4) "same"
        (Activation.leakyReLU (1/10)) (l2 (1/100)) none) = true
      ∨ Layer.conv2D 64 (3, 3) (4, 4) "same" (Activation.leakyReLU (1/10))
          (l2 (1/100)) none
        = Layer.dense 3 Activation.softmax none :=
  (better_cnn_l2_amended 32 32 1 3).1 _
    (by simp [create_better_base_cnn_model]) rfl

/-! ## Evaluator (`evaluate_model`)

`evaluate_model(H, y_pred, y_test, n_of_epochs, show_confusion_matrix=True,
interpolate=True, plot_file_name="plot.png")` computes and prints the
confusion matrix, the classification report with `zero_division=1`,
Cohen's Kappa and the accuracy, and — when a history object is supplied —
renders the loss/accuracy curves and persists the figure with
`plt.savefig(f"{plot_file_name}-{accuracy_score(y_test, y_pred)*100:.1f}acc.png")`.
Label arrays are lists of class indices, floats are exact rationals, and
the sklearn metric calls are modelled by their documented formulas.  The
result captures the computed statistics and the saved figure's name. -/

/-- `sklearn.metrics.accuracy_score(y_test, y_pred)`: the fraction of
positions where the two label lists agree. -/
def accuracy_score (y_test y_pred : List ℕ) : ℚ :=
  (((y_test.zip y_pred).filter (fun p => p.1 == p.2)).length : ℚ)
    / (y_test.length : ℚ)

/-- Entry `(i, j)` of `sklearn.metrics.confusion_matrix(y_test, y_pred)`:
the number of samples with true class `i` predicted as class `j`. -/
def confusionCount (y_test y_pred : List ℕ) (i j : ℕ) : ℕ :=
  ((y_test.zip y_pred).filter (fun p => p.1 == i && p.2 == j)).length

/-- How many entries of `y_pred` are class `c`. -/
def countPredicted (y_pred : List ℕ) (c : ℕ) : ℕ :=
  (y_pred.filter (fun y => y == c)).length

/-- How many entries of `y_test` are class `c`. -/
def countActual (y_test : List ℕ) (c : ℕ) : ℕ :=
  (y_test.filter (fun y => y == c)).length

/-- True positives of class `c`. -/
def countTruePositive (y_test y_pred : List ℕ) (c : ℕ) : ℕ :=
  confusionCount y_test y_pred c c

/-- Per-class precision of `sklearn.metrics.classification_report` with an
explicit `zero_division` policy: `tp / predicted`, or the `zero_division`
value instead of raising when class `c` never occurs in the predictions. -/
def precisionWith (zero_division : ℚ) (y_test y_pred : List ℕ) (c : ℕ) : ℚ :=
  if countPredicted y_pred c = 0 then zero_division
  else (countTruePositive y_test y_pred c : ℚ) / (countPredicted y_pred c : ℚ)

/-- Per-class recall with an explicit `zero_division` policy: `tp / actual`,
or the `zero_division` value instead of raising when class `c` never occurs
in the truth labels. -/
def recallWith (zero_division : ℚ) (y_test y_pred : List ℕ) (c : ℕ) : ℚ :=
  if countActual y_test c = 0 then zero_division
  else (countTruePositive y_test y_pred c : ℚ) / (countActual y_test c : ℚ)

/-- Python's round-half-even (banker's rounding) on an exact rational, the
tie-breaking rule `:.1f` formatting uses. -/
def roundHalfEven (q : ℚ) : ℤ :=
  let f := ⌊q⌋
  if q - f < 1/2 then f
  else if 1/2 < q - f then f + 1
  else if f % 2 = 0 then f else f + 1

/-- Python's `f"{q:.1f}"` on an exact rational: the value rounded half-even
to one decimal place, rendered with exactly one digit after the point. -/
def formatFixed1 (q : ℚ) : String :=
  let n := roundHalfEven (10 * q)
  if n < 0 then "-" ++ toString ((-n) / 10) ++ "." ++ toString ((-n) % 10)
  else toString (n / 10) ++ "." ++ toString (n % 10)

/-- A Keras `History` as `evaluate_model` reads it: the per-epoch series
`H.history["loss"]`, `["val_loss"]`, `["accuracy"]`, `["val_accuracy"]`. -/
structure History : Type where
  loss : List ℚ
  val_loss : List ℚ
  accuracy : List ℚ
  val_accuracy : List ℚ

/-- What `evaluate_model` computes: the printed statistics (as functions of
the class index) and the name of the persisted training-curve figure
(`none` when no history object was supplied, so nothing is saved). -/
structure EvalResult : Type where
  confusion : ℕ → ℕ → ℕ
  precisionScore : ℕ → ℚ
  recallScore : ℕ → ℚ
  accuracy : ℚ
  savedPlotFile : Option String

/-- `evaluate_model` from `commons.ipynb`: the classification report is
computed with `zero_division=1`; when `H is not None` the figure is saved
as `f"{plot_file_name}-{accuracy_score(y_test, y_pred)*100:.1f}acc.png"`. -/
def evaluate_model (H : Option History) (y_pred y_test : List ℕ)
    (n_of_epochs : ℕ) (show_confusion_matrix : Bool := true)
    (interpolate : Bool := true) (plot_file_name : String := "plot.png") :
    EvalResult where
  confusion := confusionCount y_test y_pred
  precisionScore := precisionWith 1 y_test y_pred
  recallScore := recallWith 1 y_test y_pred
  accuracy := accuracy_score y_test y_pred
  savedPlotFile :=
    match H with
    | none => none
    | some _ => some (plot_file_name ++ "-"
        ++ formatFixed1 (accuracy_score y_test y_pred * 100) ++ "acc.png")

/-- C7: the classification report of `evaluate_model` uses the permissive
`zero_division = 1` policy — for every pair of label lists and every class,
a class absent from the predictions gets precision 1, and a class absent
from the truth batch gets recall 1, instead of an error (the computation is
total).  The two zero-division cases are independent: either absence alone
triggers the policy for its metric. -/
theorem evaluate_model_zero_division (H : Option History)
    (y_pred y_test : List ℕ) (n_of_epochs : ℕ) (scm ip : Bool)
    (plot_file_name : String) (c : ℕ) :
    (countPredicted y_pred c = 0 →
      (evaluate_model H y_pred y_test n_of_epochs scm ip
          plot_file_name).precisionScore c = 1)
    ∧ (countActual y_test c = 0 →
      (evaluate_model H y_pred y_test n_of_epochs scm ip
          plot_file_name).recallScore c = 1) := by
  constructor
  · intro hpred
    simp [evaluate_model, precisionWith, hpred]
  · intro hactual
    simp [evaluate_model, recallWith, hactual]

/-- Witness for C7, covering each one-sided zero-division case: with
`y_pred = [0]`, `y_test = [1]`, class `1` occurs in the truth labels but is
never predicted, so its precision is the policy value 1; class `0` is
predicted but absent from the truth batch, so its recall is 1. -/
theorem evaluate_model_zero_division_witness :
    (evaluate_model none [0] [1] 1 true true "plot.png").precisionScore 1 = 1
    ∧ (evaluate_model none [0] [1] 1 true true "plot.png").recallScore 0 = 1 :=
  ⟨(evaluate_model_zero_division none [0] [1] 1 true true "plot.png" 1).1 rfl,
    (evaluate_model_zero_division none [0] [1] 1 true true "plot.png" 0).2 rfl⟩

/-- C9: with a history object, `evaluate_model` persists the training-curve
figure as the caller-supplied base name suffixed with the overall accuracy
percentage, exactly `{base}-{accuracy:.1f}acc.png`; with no history nothing
is saved.  Concretely, accuracy 2/3 formats as `"66.7"`. -/
theorem evaluate_model_plot_filename (h : History) (y_pred y_test : List ℕ)
    (n_of_epochs : ℕ) (scm ip : Bool) (plot_file_name : String) :
    (evaluate_model (some h) y_pred y_test n_of_epochs scm ip
        plot_file_name).savedPlotFile
      = some (plot_file_name ++ "-"
          ++ formatFixed1 (accuracy_score y_test y_pred * 100) ++ "acc.png")
    ∧ (evaluate_model none y_pred y_test n_of_epochs scm ip
        plot_file_name).savedPlotFile = none
    ∧ formatFixed1 ((2/3 : ℚ) * 100) = "66.7" := by
  refine ⟨rfl, rfl, ?_⟩
  have h0 : (10 : ℚ) * ((2/3) * 100) = 2000/3 := by norm_num
  have h2 : roundHalfEven (2000/3) = 667 := by
    unfold roundHalfEven
    have hf : ⌊(2000/3 : ℚ)⌋ = 666 := by norm_num [Int.floor_eq_iff]
    rw [hf]
    norm_num
  unfold formatFixed1
  rw [h0, h2]
  norm_num
  rfl

end SpeakerRecognition
